import Mathlib

/-
  Verification of the data-preparation pipeline of the Global CO₂ Emissions
  Explorer dashboard (app.py).

  The program is a linear pandas pipeline:
    * `load_data` reads the OWID CSV, drops rows missing any of
      co2 / co2_per_capita / year / iso_code, selects thirteen columns and
      removes rows whose country is on an explicit region denylist;
    * `map_data` filters the loaded table by exact year equality;
    * `line_chart_data` filters the loaded table by country-set membership;
    * `melted_data` reshapes the coal/oil/gas columns of the filtered table
      into long form for the stacked bar chart.

  We model a dataframe shallowly: a cell is an optional value (missing = NaN),
  a row is an association list from column names to cells, and a table carries
  its column list and its rows.  Floating-point numbers in the CSV are never
  computed with by the program, only moved and compared, so they are modelled
  as exact rationals.
-/

namespace CO2Explorer

/-- A scalar value stored in a dataframe cell: a string or a number. -/
inductive Value where
  | str : String → Value
  | num : Rat → Value
deriving DecidableEq, Repr

/-- A cell of a dataframe; `none` models a missing value (NaN). -/
abbrev Cell := Option Value

/-- A dataframe row: an association list from column names to cells. -/
abbrev Row := List (String × Cell)

/-- A dataframe: its column names and its rows. -/
structure Table where
  cols : List String
  rows : List Row
deriving DecidableEq, Repr

/-- Reading the cell of column `c` in row `r`; an absent key reads as missing. -/
def getCell (r : Row) (c : String) : Cell :=
  match List.lookup c r with
  | some v => v
  | none => none

/-- The thirteen columns selected by `load_data`
  (app.py line 21, in source order). -/
def relevant_columns : List String :=
  ["country", "year", "co2", "co2_per_capita", "iso_code", "population", "gdp",
   "co2_per_gdp", "cumulative_co2", "coal_co2", "oil_co2", "gas_co2",
   "share_global_co2"]

/-- The subset passed to `dropna` (app.py line 20). -/
def dropna_subset : List String := ["co2", "co2_per_capita", "year", "iso_code"]

/-- The aggregate-region denylist (app.py line 24). -/
def regions_to_exclude : List String :=
  ["World", "Asia", "Europe", "North America", "South America",
   "International transport", "Micronesia (country)"]

/-- Whether a row survives `df.dropna(subset=subset)`: all listed columns
  hold a present (non-NaN) value. -/
def dropnaKeep (subset : List String) (r : Row) : Bool :=
  subset.all (fun c => (getCell r c).isSome)

/-- `df.dropna(subset=subset)`: keep only rows with no missing value in the
  listed columns. -/
def dropna (subset : List String) (t : Table) : Table :=
  { t with rows := t.rows.filter (dropnaKeep subset) }

/-- The projection of one row onto the column list `cs` (in that order). -/
def selRow (cs : List String) (r : Row) : Row :=
  cs.map (fun c => (c, getCell r c))

/-- `df[[c1, ..., cn]]`: column selection. -/
def selectColumns (cs : List String) (t : Table) : Table :=
  { cols := cs, rows := t.rows.map (selRow cs) }

/-- `series.isin(names)` on one cell: true exactly when the cell holds a
  string belonging to `names` (a missing or numeric cell is never `isin`
  a list of strings, matching pandas). -/
def cellIsin (names : List String) (c : Cell) : Bool :=
  match c with
  | some (Value.str s) => names.contains s
  | _ => false

/-- `df[~df['country'].isin(regions_to_exclude)]` (app.py line 25). -/
def filterNotRegion (t : Table) : Table :=
  { t with rows :=
      t.rows.filter (fun r => ! cellIsin regions_to_exclude (getCell r "country")) }

/-- `load_data` (app.py lines 13-27), applied to the raw CSV table:
  drop rows with missing co2/co2_per_capita/year/iso_code, select the
  thirteen relevant columns, then drop denylisted aggregate regions. -/
def load_data (df : Table) : Table :=
  filterNotRegion (selectColumns relevant_columns (dropna dropna_subset df))

/-- `map_data = data[data['year'] == selected_year]` (app.py line 110). -/
def map_data (data : Table) (selected_year : Rat) : Table :=
  { data with rows :=
      data.rows.filter (fun r => getCell r "year" == some (Value.num selected_year)) }

/-- `line_chart_data = data[data['country'].isin(selected_countries)]`
  (app.py line 112). -/
def line_chart_data (data : Table) (selected_countries : List String) : Table :=
  { data with rows :=
      data.rows.filter (fun r => cellIsin selected_countries (getCell r "country")) }

/-- The `value_vars` of the melt (app.py line 163). -/
def fuel_value_vars : List String := ["coal_co2", "oil_co2", "gas_co2"]

/-- The `var_name` of the melt (app.py line 164). -/
def fuel_var_name : String := "Fuel Type"

/-- The `value_name` of the melt (app.py line 165). -/
def fuel_value_name : String := "CO2 Emissions (Million Tonnes)"

/-- One output row of `DataFrame.melt`: the id columns of `r` unchanged,
  then the melted column name under `var_name` and its cell under
  `value_name`. -/
def meltRow (id_vars : List String) (var_name value_name : String)
    (v : String) (r : Row) : Row :=
  id_vars.map (fun c => (c, getCell r c)) ++
    [(var_name, some (Value.str v)), (value_name, getCell r v)]

/-- `DataFrame.melt(id_vars, value_vars, var_name, value_name)`: one block of
  output rows per melted column, in `value_vars` order, each block listing the
  input rows in order (pandas semantics). -/
def melt (id_vars value_vars : List String) (var_name value_name : String)
    (t : Table) : Table :=
  { cols := id_vars ++ [var_name, value_name]
  , rows := value_vars.flatMap
      (fun v => t.rows.map (meltRow id_vars var_name value_name v)) }

/-- `melted_data = line_chart_data.melt(...)` (app.py lines 161-166). -/
def melted_data (data : Table) (selected_countries : List String) : Table :=
  melt ["country", "year"] fuel_value_vars fuel_var_name fuel_value_name
    (line_chart_data data selected_countries)

/-- `if not line_chart_data.empty:` guard of the line chart (app.py line 138). -/
def line_chart_shown (data : Table) (sel : List String) : Bool :=
  !(line_chart_data data sel).rows.isEmpty

/-- The line-chart `st.warning` runs exactly when the guard fails
  (app.py line 154). -/
def line_warning_shown (data : Table) (sel : List String) : Bool :=
  (line_chart_data data sel).rows.isEmpty

/-- `if not melted_data.empty:` guard of the stacked bar chart
  (app.py line 168). -/
def bar_chart_shown (data : Table) (sel : List String) : Bool :=
  !(melted_data data sel).rows.isEmpty

/-- The bar-chart `st.warning` runs exactly when the guard fails
  (app.py line 190). -/
def bar_warning_shown (data : Table) (sel : List String) : Bool :=
  (melted_data data sel).rows.isEmpty

/-- All cells appearing anywhere in a table. -/
def tableCells (t : Table) : List Cell :=
  t.rows.flatMap (fun r => r.map Prod.snd)

/-- A store of script-level dataframe variables, newest binding first. -/
abbrev Store := List (String × Table)

/-- Bind (or rebind) a script variable. -/
def Store.set (s : Store) (x : String) (t : Table) : Store := (x, t) :: s

/-- Read a script variable. -/
def Store.get (s : Store) (x : String) : Option Table := List.lookup x s

/-- The dataframe assignments of app.py in program order
  (lines 29, 110, 112, 161): `data = load_data(...)`, then the three derived
  tables, each computed by reading — never rebinding — `data`. -/
def runScript (raw : Table) (selected_year : Rat)
    (selected_countries : List String) : Store :=
  let s1 := Store.set [] "data" (load_data raw)
  let d := (Store.get s1 "data").getD (Table.mk [] [])
  let s2 := Store.set s1 "map_data" (map_data d selected_year)
  let s3 := Store.set s2 "line_chart_data" (line_chart_data d selected_countries)
  let lcd := (Store.get s3 "line_chart_data").getD (Table.mk [] [])
  Store.set s3 "melted_data"
    (melt ["country", "year"] fuel_value_vars fuel_var_name fuel_value_name lcd)

/- Concrete sample data used by the witnesses. -/

/-- A complete row for France (year 2000), with one extra CSV column. -/
def frRow : Row :=
  [("country", some (Value.str "France")), ("year", some (Value.num 2000)),
   ("co2", some (Value.num 10)), ("co2_per_capita", some (Value.num 1)),
   ("iso_code", some (Value.str "FRA")), ("population", some (Value.num 60)),
   ("gdp", some (Value.num 100)), ("co2_per_gdp", some (Value.num 2)),
   ("cumulative_co2", some (Value.num 300)), ("coal_co2", some (Value.num 4)),
   ("oil_co2", some (Value.num 5)), ("gas_co2", some (Value.num 6)),
   ("share_global_co2", some (Value.num 7)),
   ("source_note", some (Value.str "owid"))]

/-- A complete row for the aggregate region World. -/
def worldRow : Row :=
  [("country", some (Value.str "World")), ("year", some (Value.num 2000)),
   ("co2", some (Value.num 90)), ("co2_per_capita", some (Value.num 9)),
   ("iso_code", some (Value.str "OWID_WRL")), ("population", some (Value.num 600)),
   ("gdp", some (Value.num 900)), ("co2_per_gdp", some (Value.num 9)),
   ("cumulative_co2", some (Value.num 900)), ("coal_co2", some (Value.num 30)),
   ("oil_co2", some (Value.num 30)), ("gas_co2", some (Value.num 30)),
   ("share_global_co2", some (Value.num 100)),
   ("source_note", some (Value.str "owid"))]

/-- A row for Germany whose co2 cell is missing (NaN). -/
def deRow : Row :=
  [("country", some (Value.str "Germany")), ("year", some (Value.num 2000)),
   ("co2", none), ("co2_per_capita", some (Value.num 8)),
   ("iso_code", some (Value.str "DEU")), ("population", some (Value.num 80)),
   ("gdp", some (Value.num 200)), ("co2_per_gdp", some (Value.num 3)),
   ("cumulative_co2", some (Value.num 400)), ("coal_co2", some (Value.num 14)),
   ("oil_co2", some (Value.num 15)), ("gas_co2", some (Value.num 16)),
   ("share_global_co2", some (Value.num 17)),
   ("source_note", some (Value.str "owid"))]

/-- A complete row for the aggregate Africa, which is NOT on the denylist. -/
def africaRow : Row :=
  [("country", some (Value.str "Africa")), ("year", some (Value.num 1999)),
   ("co2", some (Value.num 20)), ("co2_per_capita", some (Value.num 2)),
   ("iso_code", some (Value.str "OWID_AFR")), ("population", some (Value.num 500)),
   ("gdp", some (Value.num 50)), ("co2_per_gdp", some (Value.num 4)),
   ("cumulative_co2", some (Value.num 100)), ("coal_co2", some (Value.num 1)),
   ("oil_co2", some (Value.num 2)), ("gas_co2", some (Value.num 3)),
   ("share_global_co2", some (Value.num 5)),
   ("source_note", some (Value.str "owid"))]

/-- A small sample of the raw OWID CSV table. -/
def exTable : Table :=
  { cols := relevant_columns ++ ["source_note"]
  , rows := [frRow, worldRow, deRow, africaRow] }

/- Helper lemmas shared by the claim theorems. -/

/-- Projection onto a column list preserves the cells of listed columns. -/
lemma getCell_selRow (cs : List String) (r : Row) (c : String) (h : c ∈ cs) :
    getCell (selRow cs r) c = getCell r c := by
  induction cs with
  | nil => simp at h
  | cons c0 cs ih =>
    by_cases hc : c = c0
    · subst hc
      simp [selRow, getCell, List.lookup]
    · have hmem : c ∈ cs := by
        rcases List.mem_cons.mp h with h1 | h1
        · exact absurd h1 hc
        · exact h1
      have hb : (c == c0) = false := beq_eq_false_iff_ne.mpr hc
      have h2 := ih hmem
      simp only [selRow, List.map_cons, getCell, List.lookup, hb] at h2 ⊢
      exact h2

/-- The keys of a projected row are exactly the selected columns. -/
lemma selRow_keys (cs : List String) (r : Row) :
    (selRow cs r).map Prod.fst = cs := by
  induction cs with
  | nil => rfl
  | cons c cs ih => simp only [selRow, List.map_cons] at ih ⊢; rw [ih]

/-- `isin` on a cell holds exactly for a string cell whose string is listed. -/
lemma cellIsin_iff (names : List String) (c : Cell) :
    cellIsin names c = true ↔ ∃ s, c = some (Value.str s) ∧ s ∈ names := by
  cases c with
  | none => simp [cellIsin]
  | some v =>
    cases v with
    | str s => simp [cellIsin, List.elem_iff]
    | num q => simp [cellIsin]

/-- Characterization of the rows produced by `load_data`: exactly the
  projections of input rows that pass the dropna test and are not
  denylisted regions. -/
lemma mem_load_data (t : Table) (r : Row) :
    r ∈ (load_data t).rows ↔
      ∃ r0, r0 ∈ t.rows ∧ dropnaKeep dropna_subset r0 = true ∧
        cellIsin regions_to_exclude (getCell r0 "country") = false ∧
        r = selRow relevant_columns r0 := by
  have hcountry : "country" ∈ relevant_columns := by simp [relevant_columns]
  constructor
  · intro hr
    simp only [load_data, filterNotRegion, selectColumns, dropna,
      List.mem_filter, List.mem_map] at hr
    obtain ⟨⟨r0, ⟨hr0mem, hkeep⟩, hsel⟩, hreg⟩ := hr
    refine ⟨r0, hr0mem, hkeep, ?_, hsel.symm⟩
    rw [← hsel] at hreg
    rw [getCell_selRow relevant_columns r0 "country" hcountry] at hreg
    simpa using hreg
  · rintro ⟨r0, hr0, hkeep, hreg, rfl⟩
    simp only [load_data, filterNotRegion, selectColumns, dropna,
      List.mem_filter, List.mem_map]
    refine ⟨⟨r0, ⟨hr0, hkeep⟩, rfl⟩, ?_⟩
    rw [getCell_selRow relevant_columns r0 "country" hcountry, hreg]
    rfl

/-- Characterization of the rows produced by `melt`. -/
lemma mem_melt (id_vars value_vars : List String) (vn cn : String) (t : Table)
    (m : Row) :
    m ∈ (melt id_vars value_vars vn cn t).rows ↔
      ∃ v, v ∈ value_vars ∧ ∃ r, r ∈ t.rows ∧ m = meltRow id_vars vn cn v r := by
  simp only [melt, List.mem_flatMap, List.mem_map]
  constructor
  · rintro ⟨v, hv, r, hr, rfl⟩
    exact ⟨v, hv, r, hr, rfl⟩
  · rintro ⟨v, hv, r, hr, rfl⟩
    exact ⟨v, hv, r, hr, rfl⟩

/-- `melt` produces one output row per melted column per input row. -/
lemma length_melt (id_vars value_vars : List String) (vn cn : String) (t : Table) :
    (melt id_vars value_vars vn cn t).rows.length
      = value_vars.length * t.rows.length := by
  simp only [melt]
  induction value_vars with
  | nil => simp
  | cons v vs ih => simp_all [Nat.succ_mul, Nat.add_comm]

/-- A successful association-list lookup comes from an actual entry. -/
lemma lookup_mem (l : Row) (k : String) (v : Cell)
    (h : List.lookup k l = some v) : (k, v) ∈ l := by
  induction l with
  | nil => simp [List.lookup] at h
  | cons p l ih =>
    obtain ⟨k0, v0⟩ := p
    by_cases hk : k = k0
    · subst hk
      simp [List.lookup] at h
      rw [h]
      exact List.mem_cons_self _ _
    · have hb : (k == k0) = false := beq_eq_false_iff_ne.mpr hk
      simp only [List.lookup, hb] at h
      exact List.mem_cons_of_mem _ (ih h)

/-- Reading a column whose key is present yields a cell of the table. -/
lemma getCell_mem_tableCells (t : Table) (r : Row) (hr : r ∈ t.rows) (c : String)
    (hk : (List.lookup c r).isSome = true) : getCell r c ∈ tableCells t := by
  obtain ⟨v, hv⟩ := Option.isSome_iff_exists.mp hk
  have hmem : (c, v) ∈ r := lookup_mem r c v hv
  have : getCell r c = v := by simp [getCell, hv]
  rw [this]
  simp only [tableCells, List.mem_flatMap]
  exact ⟨r, hr, List.mem_map.mpr ⟨(c, v), hmem, rfl⟩⟩

/-- Every cell of a projected row is the reading of some selected column. -/
lemma cells_of_selRow (r0 : Row) (c : Cell)
    (hc : c ∈ (selRow relevant_columns r0).map Prod.snd) :
    ∃ c0, c0 ∈ relevant_columns ∧ c = getCell r0 c0 := by
  simp only [selRow, List.map_map, List.mem_map, Function.comp] at hc
  obtain ⟨c0, hc0, rfl⟩ := hc
  exact ⟨c0, hc0, rfl⟩

/-- When every relevant column key is present in the raw table, `load_data`
  introduces no cell that was not already in the raw table. -/
lemma load_data_cells (t : Table)
    (hk : ∀ r ∈ t.rows, ∀ c ∈ relevant_columns, (List.lookup c r).isSome = true) :
    ∀ c ∈ tableCells (load_data t), c ∈ tableCells t := by
  intro c hc
  simp only [tableCells, List.mem_flatMap] at hc
  obtain ⟨r, hr, hcr⟩ := hc
  obtain ⟨r0, hr0, hkeep, hreg, rfl⟩ := (mem_load_data t r).mp hr
  obtain ⟨c0, hc0, rfl⟩ := cells_of_selRow r0 c hcr
  exact getCell_mem_tableCells t r0 hr0 c0 (hk r0 hr0 c0 hc0)

/- Claim theorems. -/

/-- Claim C1: every row of the table returned by `load_data` has all four of
  the columns co2, co2_per_capita, year and iso_code present (non-null),
  for every input table. -/
theorem C1_load_data_no_missing_required (t : Table) (r : Row)
    (hr : r ∈ (load_data t).rows) :
    (getCell r "co2").isSome = true ∧ (getCell r "co2_per_capita").isSome = true ∧
    (getCell r "year").isSome = true ∧ (getCell r "iso_code").isSome = true := by
  obtain ⟨r0, hmem, hkeep, hreg, rfl⟩ := (mem_load_data t r).mp hr
  have h4 : (getCell r0 "co2").isSome = true ∧
      (getCell r0 "co2_per_capita").isSome = true ∧
      (getCell r0 "year").isSome = true ∧
      (getCell r0 "iso_code").isSome = true := by
    simpa [dropnaKeep, dropna_subset] using hkeep
  refine ⟨?_, ?_, ?_, ?_⟩ <;>
    rw [getCell_selRow relevant_columns r0 _ (by simp [relevant_columns])] <;>
    tauto

/-- Witness for C1: the France row of the sample table survives `load_data`
  and indeed has the four required cells present. -/
theorem C1_witness :
    selRow relevant_columns frRow ∈ (load_data exTable).rows ∧
      ((getCell (selRow relevant_columns frRow) "co2").isSome = true ∧
       (getCell (selRow relevant_columns frRow) "co2_per_capita").isSome = true ∧
       (getCell (selRow relevant_columns frRow) "year").isSome = true ∧
       (getCell (selRow relevant_columns frRow) "iso_code").isSome = true) :=
  ⟨by decide,
   C1_load_data_no_missing_required exTable (selRow relevant_columns frRow)
     (by decide)⟩

/-- Claim C2: on an input table containing at least the thirteen relevant
  columns, `load_data` returns a table whose columns are exactly the thirteen
  relevant columns (and each row carries exactly those keys), and every
  retained cell is unchanged from some input row. -/
theorem C2_load_data_columns (t : Table)
    (_hcols : ∀ c ∈ relevant_columns, c ∈ t.cols) :
    (load_data t).cols = relevant_columns ∧
    ∀ r ∈ (load_data t).rows,
      r.map Prod.fst = relevant_columns ∧
      ∃ r0 ∈ t.rows, ∀ c ∈ relevant_columns, getCell r c = getCell r0 c := by
  refine ⟨rfl, ?_⟩
  intro r hr
  obtain ⟨r0, hmem, hkeep, hreg, rfl⟩ := (mem_load_data t r).mp hr
  exact ⟨selRow_keys _ _, r0, hmem, fun c hc => getCell_selRow _ _ _ hc⟩

/-- Witness for C2: the sample table contains all thirteen relevant columns
  and the conclusion holds on it. -/
theorem C2_witness :
    (∀ c ∈ relevant_columns, c ∈ exTable.cols) ∧
      ((load_data exTable).cols = relevant_columns ∧
       ∀ r ∈ (load_data exTable).rows,
         r.map Prod.fst = relevant_columns ∧
         ∃ r0 ∈ exTable.rows, ∀ c ∈ relevant_columns, getCell r c = getCell r0 c) :=
  ⟨by decide, C2_load_data_columns exTable (by decide)⟩

/-- Claim C3: no row of the table returned by `load_data` carries a country
  name belonging to the aggregate-region denylist. -/
theorem C3_no_denylisted_regions (t : Table) (r : Row)
    (hr : r ∈ (load_data t).rows) (s : String)
    (hs : getCell r "country" = some (Value.str s)) :
    s ∉ regions_to_exclude := by
  obtain ⟨r0, hmem, hkeep, hreg, rfl⟩ := (mem_load_data t r).mp hr
  rw [getCell_selRow relevant_columns r0 "country"
      (by simp [relevant_columns])] at hs
  intro hin
  have hcontra : cellIsin regions_to_exclude (getCell r0 "country") = true :=
    (cellIsin_iff _ _).mpr ⟨s, hs, hin⟩
  rw [hcontra] at hreg
  simp at hreg

/-- Witness for C3: the retained France row has country France, which is not
  on the denylist. -/
theorem C3_witness :
    selRow relevant_columns frRow ∈ (load_data exTable).rows ∧
      getCell (selRow relevant_columns frRow) "country"
        = some (Value.str "France") ∧
      "France" ∉ regions_to_exclude :=
  ⟨by decide, by decide,
   C3_no_denylisted_regions exTable (selRow relevant_columns frRow) (by decide)
     "France" (by decide)⟩

/-- Claim C4: `map_data` consists of exactly those rows of the loaded table
  whose year cell equals the selected year, by exact equality, and no
  other rows. -/
theorem C4_map_data_exact_year (data : Table) (y : Rat) (r : Row) :
    r ∈ (map_data data y).rows ↔
      r ∈ data.rows ∧ getCell r "year" = some (Value.num y) := by
  simp [map_data, List.mem_filter]

/-- Claim C5: a row of the loaded table contributes to the time-series view
  exactly when its country is a member of the selected set, and the
  fossil-fuel breakdown view consists exactly of the melted images of such
  rows. -/
theorem C5_country_membership_filters (data : Table) (sel : List String) :
    (∀ r, r ∈ (line_chart_data data sel).rows ↔
        r ∈ data.rows ∧ ∃ s, getCell r "country" = some (Value.str s) ∧ s ∈ sel) ∧
    (∀ m, m ∈ (melted_data data sel).rows ↔
        ∃ r, (r ∈ data.rows ∧
              ∃ s, getCell r "country" = some (Value.str s) ∧ s ∈ sel) ∧
          ∃ v, v ∈ fuel_value_vars ∧
            m = meltRow ["country", "year"] fuel_var_name fuel_value_name v r) := by
  have hline : ∀ r, r ∈ (line_chart_data data sel).rows ↔
      r ∈ data.rows ∧ ∃ s, getCell r "country" = some (Value.str s) ∧ s ∈ sel := by
    intro r
    simp [line_chart_data, List.mem_filter, cellIsin_iff]
  refine ⟨hline, ?_⟩
  intro m
  rw [melted_data, mem_melt]
  constructor
  · rintro ⟨v, hv, r, hr, rfl⟩
    exact ⟨r, (hline r).mp hr, v, hv, rfl⟩
  · rintro ⟨r, hr, v, hv, rfl⟩
    exact ⟨v, hv, r, (hline r).mpr hr, rfl⟩

/-- Claim C6: the melt for the stacked bar chart turns each row of the
  filtered table into exactly three output rows, one per fuel column, each
  keyed by the unchanged (country, year) of the input row and carrying the
  fuel name and that fuel column's cell; the output has exactly three times
  as many rows as the filtered table, and nothing else. -/
theorem C6_melt_shape (data : Table) (sel : List String) :
    (melted_data data sel).rows.length
        = 3 * (line_chart_data data sel).rows.length ∧
    (∀ r, r ∈ (line_chart_data data sel).rows → ∀ v, v ∈ fuel_value_vars →
      meltRow ["country", "year"] fuel_var_name fuel_value_name v r
            ∈ (melted_data data sel).rows ∧
      getCell (meltRow ["country", "year"] fuel_var_name fuel_value_name v r)
            "country" = getCell r "country" ∧
      getCell (meltRow ["country", "year"] fuel_var_name fuel_value_name v r)
            "year" = getCell r "year" ∧
      getCell (meltRow ["country", "year"] fuel_var_name fuel_value_name v r)
            fuel_var_name = some (Value.str v) ∧
      getCell (meltRow ["country", "year"] fuel_var_name fuel_value_name v r)
            fuel_value_name = getCell r v) ∧
    (∀ m, m ∈ (melted_data data sel).rows →
      ∃ v, v ∈ fuel_value_vars ∧ ∃ r, r ∈ (line_chart_data data sel).rows ∧
        m = meltRow ["country", "year"] fuel_var_name fuel_value_name v r) := by
  refine ⟨?_, ?_, ?_⟩
  · rw [melted_data, length_melt]
    rfl
  · intro r hr v hv
    refine ⟨?_, rfl, rfl, rfl, rfl⟩
    rw [melted_data, mem_melt]
    exact ⟨v, hv, r, hr, rfl⟩
  · intro m hm
    rw [melted_data, mem_melt] at hm
    exact hm

/-- Counterexample to C7 as stated: the melted table contains the fuel-label
  cell "coal_co2", which is not equal to any cell of the originally loaded
  sample table. -/
theorem C7_counterexample :
    some (Value.str "coal_co2")
        ∈ tableCells (melted_data (load_data exTable) ["France"]) ∧
    some (Value.str "coal_co2") ∉ tableCells exTable := by
  decide

/-- Claim C7 (amended): every cell of the tables produced by `load_data`,
  `map_data` and `line_chart_data` equals some cell of the originally loaded
  table, and every cell of `melted_data` either equals some cell of the
  originally loaded table or is one of the three fuel-type labels introduced
  as values by the reshape; no numeric value is computed or transformed. -/
theorem C7_amended_no_new_values (t : Table) (y : Rat) (sel : List String)
    (hk : ∀ r ∈ t.rows, ∀ c ∈ relevant_columns, (List.lookup c r).isSome = true) :
    (∀ c ∈ tableCells (load_data t), c ∈ tableCells t) ∧
    (∀ c ∈ tableCells (map_data (load_data t) y), c ∈ tableCells t) ∧
    (∀ c ∈ tableCells (line_chart_data (load_data t) sel), c ∈ tableCells t) ∧
    (∀ c ∈ tableCells (melted_data (load_data t) sel),
        c ∈ tableCells t ∨ c = some (Value.str "coal_co2") ∨
        c = some (Value.str "oil_co2") ∨ c = some (Value.str "gas_co2")) := by
  have hload := load_data_cells t hk
  refine ⟨hload, ?_, ?_, ?_⟩
  · intro c hc
    simp only [tableCells, List.mem_flatMap, map_data, List.mem_filter] at hc
    obtain ⟨r, ⟨hr, hy⟩, hcr⟩ := hc
    exact hload c (by simp only [tableCells, List.mem_flatMap]; exact ⟨r, hr, hcr⟩)
  · intro c hc
    simp only [tableCells, List.mem_flatMap, line_chart_data, List.mem_filter] at hc
    obtain ⟨r, ⟨hr, hy⟩, hcr⟩ := hc
    exact hload c (by simp only [tableCells, List.mem_flatMap]; exact ⟨r, hr, hcr⟩)
  · intro c hc
    simp only [tableCells, List.mem_flatMap] at hc
    obtain ⟨m, hm, hcm⟩ := hc
    rw [melted_data, mem_melt] at hm
    obtain ⟨v, hv, r, hr, rfl⟩ := hm
    have hrload : r ∈ (load_data t).rows := by
      have h2 := hr
      simp only [line_chart_data, List.mem_filter] at h2
      exact h2.1
    obtain ⟨r0, hr0, hkeep, hreg, rfl⟩ := (mem_load_data t r).mp hrload
    have hvrel : v ∈ relevant_columns := by
      simp only [fuel_value_vars, List.mem_cons, List.not_mem_nil, or_false] at hv
      rcases hv with rfl | rfl | rfl <;> simp [relevant_columns]
    have hcells : (meltRow ["country", "year"] fuel_var_name fuel_value_name v
        (selRow relevant_columns r0)).map Prod.snd
        = [getCell (selRow relevant_columns r0) "country",
           getCell (selRow relevant_columns r0) "year",
           some (Value.str v),
           getCell (selRow relevant_columns r0) v] := rfl
    rw [hcells] at hcm
    simp only [List.mem_cons, List.not_mem_nil, or_false] at hcm
    have hcountry : "country" ∈ relevant_columns := by simp [relevant_columns]
    have hyear : "year" ∈ relevant_columns := by simp [relevant_columns]
    rcases hcm with rfl | rfl | rfl | rfl
    · left
      rw [getCell_selRow relevant_columns r0 "country" hcountry]
      exact getCell_mem_tableCells t r0 hr0 "country" (hk r0 hr0 "country" hcountry)
    · left
      rw [getCell_selRow relevant_columns r0 "year" hyear]
      exact getCell_mem_tableCells t r0 hr0 "year" (hk r0 hr0 "year" hyear)
    · right
      simp only [fuel_value_vars, List.mem_cons, List.not_mem_nil, or_false] at hv
      rcases hv with rfl | rfl | rfl
      · left; rfl
      · right; left; rfl
      · right; right; rfl
    · left
      rw [getCell_selRow relevant_columns r0 v hvrel]
      exact getCell_mem_tableCells t r0 hr0 v (hk r0 hr0 v hvrel)

/-- Witness for the amended C7: the sample table has all relevant column keys
  present, and the amended conclusion holds on it. -/
theorem C7_amended_witness :
    (∀ r ∈ exTable.rows, ∀ c ∈ relevant_columns,
        (List.lookup c r).isSome = true) ∧
      ((∀ c ∈ tableCells (load_data exTable), c ∈ tableCells exTable) ∧
       (∀ c ∈ tableCells (map_data (load_data exTable) 2000),
          c ∈ tableCells exTable) ∧
       (∀ c ∈ tableCells (line_chart_data (load_data exTable) ["France"]),
          c ∈ tableCells exTable) ∧
       (∀ c ∈ tableCells (melted_data (load_data exTable) ["France"]),
          c ∈ tableCells exTable ∨ c = some (Value.str "coal_co2") ∨
          c = some (Value.str "oil_co2") ∨ c = some (Value.str "gas_co2"))) :=
  ⟨by decide, C7_amended_no_new_values exTable 2000 ["France"] (by decide)⟩

/-- Claim C8: after running all the dataframe assignments of the script in
  order, the variable data still holds exactly the table `load_data`
  produced, and each derived variable holds a fresh table computed from it:
  no step writes back to its input. -/
theorem C8_pipeline_no_mutation (raw : Table) (y : Rat) (sel : List String) :
    Store.get (runScript raw y sel) "data" = some (load_data raw) ∧
    Store.get (runScript raw y sel) "map_data"
        = some (map_data (load_data raw) y) ∧
    Store.get (runScript raw y sel) "line_chart_data"
        = some (line_chart_data (load_data raw) sel) ∧
    Store.get (runScript raw y sel) "melted_data"
        = some (melted_data (load_data raw) sel) :=
  ⟨rfl, rfl, rfl, rfl⟩

/-- Claim C9: the region exclusion is an exact string match against precisely
  the seven listed names: a row passing the missing-value drop is retained by
  `load_data` if and only if its country is not one of those seven strings, so
  any other aggregate name (such as Africa) is retained. -/
theorem C9_exact_denylist (t : Table) (r : Row) (hr : r ∈ t.rows)
    (hkeep : dropnaKeep dropna_subset r = true) :
    selRow relevant_columns r ∈ (load_data t).rows ↔
      ∀ s, getCell r "country" = some (Value.str s) →
        s ∉ ["World", "Asia", "Europe", "North America", "South America",
             "International transport", "Micronesia (country)"] := by
  have hcountry : "country" ∈ relevant_columns := by simp [relevant_columns]
  rw [mem_load_data]
  constructor
  · rintro ⟨r0, hr0, hk0, hreg, hsel⟩ s hs hin
    have hc : getCell r0 "country" = getCell r "country" := by
      rw [← getCell_selRow relevant_columns r0 "country" hcountry, ← hsel,
          getCell_selRow relevant_columns r "country" hcountry]
    have : cellIsin regions_to_exclude (getCell r0 "country") = true :=
      (cellIsin_iff _ _).mpr ⟨s, by rw [hc, hs], hin⟩
    rw [this] at hreg
    simp at hreg
  · intro hforall
    refine ⟨r, hr, hkeep, ?_, rfl⟩
    cases heq : cellIsin regions_to_exclude (getCell r "country") with
    | false => rfl
    | true =>
      exfalso
      obtain ⟨s, hs, hin⟩ := (cellIsin_iff _ _).mp heq
      exact hforall s hs hin

/-- Witness for C9: the Africa row (an aggregate not on the denylist) has no
  missing required value, and the equivalence instantiates on it, so it is
  retained by `load_data`. -/
theorem C9_witness :
    africaRow ∈ exTable.rows ∧ dropnaKeep dropna_subset africaRow = true ∧
      (selRow relevant_columns africaRow ∈ (load_data exTable).rows ↔
        ∀ s, getCell africaRow "country" = some (Value.str s) →
          s ∉ ["World", "Asia", "Europe", "North America", "South America",
               "International transport", "Micronesia (country)"]) :=
  ⟨by decide, by decide,
   C9_exact_denylist exTable africaRow (by decide) (by decide)⟩

/-- Claim C10: with an empty country selection, the time-series table and the
  melted table are empty, the two charts are not rendered and their warnings
  are shown instead, while the map binding of the script is unaffected by the
  country selection. -/
theorem C10_empty_selection (data : Table) (y : Rat) :
    (line_chart_data data []).rows = [] ∧
    (melted_data data []).rows = [] ∧
    line_chart_shown data [] = false ∧
    line_warning_shown data [] = true ∧
    bar_chart_shown data [] = false ∧
    bar_warning_shown data [] = true ∧
    (∀ sel1 sel2 : List String,
      Store.get (runScript data y sel1) "map_data"
        = Store.get (runScript data y sel2) "map_data") := by
  have hnil : ∀ c : Cell, cellIsin [] c = false := by
    intro c
    cases c with
    | none => rfl
    | some v => cases v <;> rfl
  have h1 : (line_chart_data data []).rows = [] := by
    simp only [line_chart_data]
    apply List.filter_eq_nil_iff.mpr
    intro r hr
    simp [hnil]
  have h2 : (melted_data data []).rows = [] := by
    simp [melted_data, melt, h1]
  refine ⟨h1, h2, ?_, ?_, ?_, ?_, fun s1 s2 => rfl⟩
  · simp [line_chart_shown, h1]
  · simp [line_warning_shown, h1]
  · simp [bar_chart_shown, h2]
  · simp [bar_warning_shown, h2]

end CO2Explorer
